import Mathlib

/-!
Verification development for the `svelte-svg-viewer` viewport engine
(`src/lib/internal/SVGViewer.ts`).

The engine is a single-threaded, event-driven state machine over a
position/scale model.  We embed it shallowly: the mutable closure state of
`createViewer` becomes an explicit `ViewerState` record, and each method or
event handler becomes a pure state transformer `ViewerState → ... → ViewerState`
translated line by line from the source.

Numbers are modelled as rationals.  DOM measurement is modelled as follows:
the frame ("viewer") element has a fixed bounding rectangle with origin
`(viewerX, viewerY)` and size `(viewerW, viewerH)`; the content ("container")
element has intrinsic size `(baseW, baseH)` and is rendered under the committed
scale transform, so its measured bounding rectangle is `baseW * scale` by
`baseH * scale`.  Element attachment is a pair of booleans (the source checks
`!$containerRef || !$viewerRef`).

The two Euclidean-distance measurements of the pinch handlers
(`getPinchDistance`, a square root and hence irrational in general) enter the
embedded handlers as explicit rational-valued parameters; everything else is
computed inside the definitions exactly as in the source.
-/

namespace SvgViewer

/-- Pinch behavior selector, from `lib/internal/types.ts`
(`"zoomOnly" | "zoomDrag"`). -/
inductive PinchBehavior where
  | zoomOnly : PinchBehavior
  | zoomDrag : PinchBehavior
deriving DecidableEq, Repr

/-- A 2-d point / offset, from the `Position` type (`{x, y}`). -/
structure Position where
  x : ℚ
  y : ℚ
deriving DecidableEq, Repr

/-- A mouse event: client coordinates only (what the handlers read). -/
structure MouseEvt where
  clientX : ℚ
  clientY : ℚ
deriving DecidableEq, Repr

/-- A wheel event: client coordinates plus the two delta axes. -/
structure WheelEvt where
  clientX : ℚ
  clientY : ℚ
  deltaX : ℚ
  deltaY : ℚ
deriving DecidableEq, Repr

/-- The state of one viewer instance: the reactive stores (`position`,
`scale`, `ignoreScale`, `lockToBoundaries`, `isMoving`, `pinchBehavior`),
the construction-time options captured by the closure (`minScale`,
`maxScale`, the two sensitivities, `actionKey`), the element references
with their measured geometry, and the transient per-gesture variables
(`offset`, `lastCenter`, `lastDistance`, `hasActionKeyPressed`,
`hasPointerDown`). -/
structure ViewerState where
  position : Position
  scale : ℚ
  ignoreScale : Bool
  lockToBoundaries : Bool
  isMoving : Bool
  minScale : ℚ
  maxScale : ℚ
  scaleMouseSensitivity : ℚ
  scaleTouchpadSensitivity : ℚ
  pinchBehavior : PinchBehavior
  actionKey : Option String
  viewerAttached : Bool
  containerAttached : Bool
  viewerX : ℚ
  viewerY : ℚ
  viewerW : ℚ
  viewerH : ℚ
  baseW : ℚ
  baseH : ℚ
  offset : Position
  lastCenter : Option Position
  lastDistance : ℚ
  hasActionKeyPressed : Bool
  hasPointerDown : Bool
deriving DecidableEq, Repr

/-- Both element references are present (the source guards every method with
`if (!$containerRef || !$viewerRef) return;`). -/
def attached (s : ViewerState) : Bool :=
  s.viewerAttached && s.containerAttached

/-- Measured width of the content element's bounding rectangle:
intrinsic width times the committed scale. -/
def containerRectW (s : ViewerState) : ℚ := s.baseW * s.scale

/-- Measured height of the content element's bounding rectangle. -/
def containerRectH (s : ViewerState) : ℚ := s.baseH * s.scale

/-- The scale Change Interceptor (`onScaleChange`, SVGViewer.ts lines
100-107): pass the proposal through when `ignoreScale` is set, otherwise
reject out-of-range proposals by returning the current value. -/
def onScaleChange (ignoreScale : Bool) (minScale maxScale : ℚ)
    (curr next : ℚ) : ℚ :=
  if ignoreScale then next
  else if next > maxScale then curr
  else if next < minScale then curr
  else next

/-- The position Change Interceptor (`onPositionChange`, lines 95-97):
returns the proposal unchanged. -/
def onPositionChange (curr next : Position) : Position := next

/-- Modelled from the spec: the `overridable` store wrapper is imported from
`./index.js`, which is not part of this repository snapshot.  Per spec §4.1,
every `set(proposed)` on an overridable value replaces the stored value with
`interceptor(current, proposed)` when an interceptor is configured.  This
function is that replacement step; `scaleSet` and `positionSet` below apply it
with the viewer's interceptors. -/
def overridableSet {T : Type} (interceptor : T → T → T) (curr proposed : T) : T :=
  interceptor curr proposed

/-- `scale.set(proposed)`: the write goes through the scale interceptor. -/
def scaleSet (s : ViewerState) (proposed : ℚ) : ViewerState :=
  { s with scale := overridableSet (onScaleChange s.ignoreScale s.minScale s.maxScale) s.scale proposed }

/-- `position.set(proposed)`: the write goes through the position
interceptor (which is the identity on the proposal). -/
def positionSet (s : ViewerState) (proposed : Position) : ViewerState :=
  { s with position := overridableSet onPositionChange s.position proposed }

/-- `getMousePosition(event, $viewerRef)`: client coordinates minus the frame
rectangle's origin. -/
def getMousePosition (s : ViewerState) (clientX clientY : ℚ) : Position :=
  ⟨clientX - s.viewerX, clientY - s.viewerY⟩

/-- `getPinchCenter`: midpoint of the two touch positions. -/
def getPinchCenter (touch1Pos touch2Pos : Position) : Position :=
  ⟨(touch1Pos.x + touch2Pos.x) / 2, (touch1Pos.y + touch2Pos.y) / 2⟩

/-- `isPinchGesture`: more than one active touch. -/
def isPinchGesture (touches : List Position) : Bool :=
  touches.length > 1

/-- `fitToViewer`'s raw (pre-clamp) scale: the axis ratio closest to 1 when
locked to boundaries, the average of the two axis ratios otherwise
(SVGViewer.ts lines 684-700). -/
def fitRawScale (s : ViewerState) : ℚ :=
  let initialContainerHeight := containerRectH s / s.scale
  let initialContainerWidth := containerRectW s / s.scale
  let scaleY := s.viewerH / initialContainerHeight
  let scaleX := s.viewerW / initialContainerWidth
  if s.lockToBoundaries then
    if |scaleY - 1| < |scaleX - 1| then scaleY else scaleX
  else (scaleY + scaleX) / 2

/-- `fitToViewer(forceScale)` (lines 661-708): compute the fitting scale,
clamp it into `[minScale, maxScale]` unless forced, commit the scale through
the interceptor, then reset the position to `(0, 0)`. -/
def fitToViewer (s : ViewerState) (forceScale : Bool) : ViewerState :=
  if !(attached s) then s
  else
    let newScale := fitRawScale s
    let newScale :=
      if !forceScale then max s.minScale (min s.maxScale newScale)
      else newScale
    positionSet (scaleSet s newScale) ⟨0, 0⟩

/-- `panTo(x, y)` (lines 474-508): clamp the requested top-left corner into
`[-(containerWidth - viewerWidth), 0]` on each axis when locked, then write
the position. -/
def panTo (s : ViewerState) (x y : ℚ) : ViewerState :=
  if !(attached s) then s
  else
    let x :=
      if s.lockToBoundaries then
        min 0 (max x (-(containerRectW s - s.viewerW)))
      else x
    let y :=
      if s.lockToBoundaries then
        min 0 (max y (-(containerRectH s - s.viewerH)))
      else y
    positionSet s ⟨x, y⟩

/-- `pan(x, y)` (lines 515-549): like `panTo` but relative to the current
position. -/
def pan (s : ViewerState) (x y : ℚ) : ViewerState :=
  if !(attached s) then s
  else
    let newX := s.position.x + x
    let newY := s.position.y + y
    let newX :=
      if s.lockToBoundaries then
        min 0 (max newX (-(containerRectW s - s.viewerW)))
      else newX
    let newY :=
      if s.lockToBoundaries then
        min 0 (max newY (-(containerRectH s - s.viewerH)))
      else newY
    positionSet s ⟨newX, newY⟩

/-- `zoom`'s sequential pre-clamp of the requested scale (lines 593-596):
skipped entirely when `ignoreScale` is set. -/
def zoomScale (s : ViewerState) (newScale : ℚ) : ℚ :=
  if !s.ignoreScale then
    let newScale := if newScale > s.maxScale then s.maxScale else newScale
    if newScale < s.minScale then s.minScale else newScale
  else newScale

/-- `zoom(x, y, newScale)` (lines 580-655): pre-clamp the scale (unless
`ignoreScale`), fall back to `fitToViewer()` when locked and the rescaled
content would be smaller than the frame on either axis, otherwise move the
position so the anchor `(x, y)` stays over the same content point (re-clamped
when locked) and commit the new scale. -/
def zoom (s : ViewerState) (x y newScale : ℚ) : ViewerState :=
  if !(attached s) then s
  else
    let oldScale := s.scale
    let newScale := zoomScale s newScale
    let scaleDiff := newScale / oldScale
    let scaledContainerWidth := containerRectW s * scaleDiff
    let scaledContainerHeight := containerRectH s * scaleDiff
    if s.lockToBoundaries ∧
        (scaledContainerWidth < s.viewerW ∨ scaledContainerHeight < s.viewerH) then
      fitToViewer s false
    else
      let newX := scaleDiff * (s.position.x - x) + x
      let newY := scaleDiff * (s.position.y - y) + y
      let newX :=
        if s.lockToBoundaries then
          min 0 (max newX (-(scaledContainerWidth - s.viewerW)))
        else newX
      let newY :=
        if s.lockToBoundaries then
          min 0 (max newY (-(scaledContainerHeight - s.viewerH)))
        else newY
      scaleSet (positionSet s ⟨newX, newY⟩) newScale

/-- `zoomOnCenter(newScale)` (lines 555-572): clamp unconditionally, then
zoom anchored at the frame's center. -/
def zoomOnCenter (s : ViewerState) (newScale : ℚ) : ViewerState :=
  if !(attached s) then s
  else
    let newScale := if newScale > s.maxScale then s.maxScale else newScale
    let newScale := if newScale < s.minScale then s.minScale else newScale
    zoom s (s.viewerW / 2) (s.viewerH / 2) newScale

/-- The scale chosen by `fitSelection` (line 723-726):
`min(viewerWidth / selectionWidth, viewerHeight / selectionHeight)`. -/
def fitSelectionScale (s : ViewerState) (selectionWidth selectionHeight : ℚ) : ℚ :=
  min (s.viewerW / selectionWidth) (s.viewerH / selectionHeight)

/-- `fitSelection(x, y, selectionWidth, selectionHeight)` (lines 710-730):
write position `(-x * newScale, -y * newScale)`, then commit the new scale
through the interceptor.  No boundary clamping is performed. -/
def fitSelection (s : ViewerState) (x y selectionWidth selectionHeight : ℚ) :
    ViewerState :=
  if !(attached s) then s
  else
    let newScale := fitSelectionScale s selectionWidth selectionHeight
    scaleSet (positionSet s ⟨-x * newScale, -y * newScale⟩) newScale

/-- `center()` (lines 732-745): place the content so the two rectangles share
a center.  No boundary clamping is performed. -/
def center (s : ViewerState) : ViewerState :=
  if !(attached s) then s
  else
    positionSet s
      ⟨-(containerRectW s - s.viewerW) / 2, -(containerRectH s - s.viewerH) / 2⟩

/-- `onMouseDown` (lines 220-238): requires both refs and the action key;
records the drag offset and arms the pointer. -/
def onMouseDown (s : ViewerState) (e : MouseEvt) : ViewerState :=
  if !(attached s) then s
  else if !s.hasActionKeyPressed then s
  else
    let newOffset := getMousePosition s e.clientX e.clientY
    { s with
        offset := ⟨newOffset.x - s.position.x, newOffset.y - s.position.y⟩,
        hasPointerDown := true }

/-- `onMouseMove` (lines 240-262): transitions to dragging on the first move
after a pointer-down, then pans to the offset-relative pointer position. -/
def onMouseMove (s : ViewerState) (e : MouseEvt) : ViewerState :=
  if !(attached s) then s
  else if !s.hasActionKeyPressed then s
  else if !s.hasPointerDown && !s.isMoving then s
  else
    let s1 :=
      if !s.isMoving then { s with isMoving := true, hasPointerDown := false }
      else s
    let newPosition := getMousePosition s1 e.clientX e.clientY
    panTo s1 (newPosition.x - s1.offset.x) (newPosition.y - s1.offset.y)

/-- `onMouseUp` (lines 264-273): ends the drag and clears the offset. -/
def onMouseUp (s : ViewerState) (e : MouseEvt) : ViewerState :=
  if !(attached s) then s
  else { s with isMoving := false, hasPointerDown := false, offset := ⟨0, 0⟩ }

/-- `onWheel` (lines 275-295): pick the dominant delta axis
(`event.deltaY || event.deltaX`), choose the mouse sensitivity when
`|delta| > 50` and the touchpad sensitivity otherwise, invert the sign by
taking the reciprocal step for negative deltas, divide the old scale by the
step, and delegate to `zoom` at the cursor position. -/
def onWheel (s : ViewerState) (e : WheelEvt) : ViewerState :=
  if !(attached s) || !s.hasActionKeyPressed then s
  else
    let delta := if e.deltaY ≠ 0 then e.deltaY else e.deltaX
    let cursorPos := getMousePosition s e.clientX e.clientY
    let scaleStep :=
      if |delta| > 50 then s.scaleMouseSensitivity
      else s.scaleTouchpadSensitivity
    let scaleDelta := if delta < 0 then 1 / scaleStep else scaleStep
    let newScale := s.scale / scaleDelta
    zoom s cursorPos.x cursorPos.y newScale

/-- `onTouchStart` (lines 297-335).  `touch1` is the first active touch and
`rest` the remaining ones (the DOM guarantees at least one touch on a
touchstart).  `pinchDistance` is the measured `getPinchDistance` of the first
two touches, passed in as a parameter (its square root is irrational in
general). -/
def onTouchStart (s : ViewerState) (touch1 : Position) (rest : List Position)
    (pinchDistance : ℚ) : ViewerState :=
  if !(attached s) then s
  else if isPinchGesture (touch1 :: rest) then
    let s1 := if s.isMoving then { s with isMoving := false } else s
    let s2 := { s1 with lastDistance := pinchDistance }
    if s2.pinchBehavior = PinchBehavior.zoomDrag then
      let touch2 := rest.headD ⟨0, 0⟩
      let newOffset := getPinchCenter touch1 touch2
      { s2 with
          offset := ⟨newOffset.x - s.position.x, newOffset.y - s.position.y⟩ }
    else s2
  else
    let newOffset := getMousePosition s touch1.x touch1.y
    { s with
        offset := ⟨newOffset.x - s.position.x, newOffset.y - s.position.y⟩,
        hasPointerDown := true }

/-- `onPinchMove` (lines 371-435).  `touch1`/`touch2` are the first two touch
positions in client coordinates; `pinchDistance` is the measured
`getPinchDistance(touch1, touch2)`, passed as a parameter.  First frame only
primes `lastCenter`; later frames compute `newScale = scale * (distance /
lastDistance)` and commit it (via `zoom`, plus a `pan` for `zoomDrag`) only
when `newScale` lies within `[minScale, maxScale]` and the rescaled content
strictly exceeds the frame on both axes; otherwise the frame is dropped. -/
def onPinchMove (s : ViewerState) (touch1 touch2 : Position)
    (pinchDistance : ℚ) : ViewerState :=
  if !(attached s) then s
  else if s.isMoving then s
  else
    let newCenter := getPinchCenter touch1 touch2
    match s.lastCenter with
    | none => { s with lastCenter := some newCenter }
    | some lastCenter =>
      let distance := pinchDistance
      let s1 := if s.lastDistance = 0 then { s with lastDistance := distance } else s
      let newScale := s1.scale * (distance / s1.lastDistance)
      if s1.scale = newScale then s1
      else
        let scaleDiff := newScale / s1.scale
        let initialContainerHeight := containerRectH s1 * scaleDiff
        let initialContainerWidth := containerRectW s1 * scaleDiff
        if newScale ≤ s1.maxScale ∧ newScale ≥ s1.minScale ∧
            initialContainerWidth > s1.viewerW ∧
            initialContainerHeight > s1.viewerH then
          let s2 :=
            match s1.pinchBehavior with
            | PinchBehavior.zoomDrag =>
              let newX := newCenter.x - lastCenter.x
              let newY := newCenter.y - lastCenter.y
              let sz := zoom s1 newCenter.x newCenter.y newScale
              pan sz (newX * scaleDiff) (newY * scaleDiff)
            | PinchBehavior.zoomOnly =>
              zoom s1 newCenter.x newCenter.y newScale
          { s2 with lastDistance := distance, lastCenter := some newCenter }
        else s1

/-- `onTouchMove` (lines 337-369): dispatch to `onPinchMove` for multi-touch,
otherwise behave like `onMouseMove` for the first touch (guarded against the
stray move after a touch end). -/
def onTouchMove (s : ViewerState) (touch1 : Position) (rest : List Position)
    (pinchDistance : ℚ) : ViewerState :=
  if !(attached s) then s
  else if isPinchGesture (touch1 :: rest) then
    onPinchMove s touch1 (rest.headD ⟨0, 0⟩) pinchDistance
  else if !s.isMoving && !s.hasPointerDown then s
  else
    let s1 :=
      if !s.isMoving then { s with isMoving := true, hasPointerDown := false }
      else s
    let newPosition := getMousePosition s1 touch1.x touch1.y
    panTo s1 (newPosition.x - s1.offset.x) (newPosition.y - s1.offset.y)

/-- `onTouchEnd` (lines 437-451): end any drag, clear the offset, and reset
the pinch baseline when touches remain (`isPinchGesture`). -/
def onTouchEnd (s : ViewerState) (touches : List Position) : ViewerState :=
  if !(attached s) then s
  else
    let s1 := { s with isMoving := false, hasPointerDown := false, offset := ⟨0, 0⟩ }
    if isPinchGesture touches then
      { s1 with lastDistance := 0, lastCenter := none }
    else s1

/-- `onKeyDown` (lines 453-459): arm the action key on the first matching,
non-repeated press. -/
def onKeyDown (s : ViewerState) (isRepeat : Bool) (key : String) : ViewerState :=
  if isRepeat || s.hasActionKeyPressed then s
  else if s.actionKey = some key then { s with hasActionKeyPressed := true }
  else s

/-- `onKeyUp` (lines 461-467): release the action key on a matching press. -/
def onKeyUp (s : ViewerState) (key : String) : ViewerState :=
  if !s.hasActionKeyPressed then s
  else if s.actionKey = some key then { s with hasActionKeyPressed := false }
  else s

/-- The observable state of a viewer: the reactive stores returned from
`createViewer` under `states` (position, ignoreScale, scale,
lockToBoundaries, isMoving, pinchBehavior). -/
structure ObservableState where
  position : Position
  scale : ℚ
  ignoreScale : Bool
  lockToBoundaries : Bool
  isMoving : Bool
  pinchBehavior : PinchBehavior
deriving DecidableEq, Repr

/-- Projection of a `ViewerState` onto its observable stores. -/
def observable (s : ViewerState) : ObservableState :=
  ⟨s.position, s.scale, s.ignoreScale, s.lockToBoundaries, s.isMoving,
    s.pinchBehavior⟩

/-- The boundary invariant of the spec: the content rectangle (at the state's
committed scale) fully covers the frame rectangle on both axes. -/
def coversFrame (s : ViewerState) : Prop :=
  -(containerRectW s - s.viewerW) ≤ s.position.x ∧ s.position.x ≤ 0 ∧
  -(containerRectH s - s.viewerH) ≤ s.position.y ∧ s.position.y ≤ 0

instance (s : ViewerState) : Decidable (coversFrame s) := by
  unfold coversFrame
  infer_instance

/-- A concrete viewer state used by the closed witness and counterexample
theorems: both elements attached, the default scale limits `0.6`/`1.4` and
sensitivities, frame `500 × 500` at the client origin, content of intrinsic
size `bW × bH`. -/
def mkState (p : Position) (sc : ℚ) (ignore lock : Bool) (bW bH : ℚ) :
    ViewerState :=
  { position := p
    scale := sc
    ignoreScale := ignore
    lockToBoundaries := lock
    isMoving := false
    minScale := 3/5
    maxScale := 7/5
    scaleMouseSensitivity := 11/10
    scaleTouchpadSensitivity := 53/50
    pinchBehavior := PinchBehavior.zoomOnly
    actionKey := none
    viewerAttached := true
    containerAttached := true
    viewerX := 0
    viewerY := 0
    viewerW := 500
    viewerH := 500
    baseW := bW
    baseH := bH
    offset := ⟨0, 0⟩
    lastCenter := none
    lastDistance := 0
    hasActionKeyPressed := true
    hasPointerDown := false }

/-- A state with the frame element reference absent, used by the `C9`
witness. -/
def detachedState : ViewerState :=
  { mkState ⟨3, 4⟩ 1 false true 1000 800 with viewerAttached := false }

/-- A locked state whose content (1000 × 1000 at scale 1) covers the 500 ×
500 frame, used by several closed theorems. -/
def lockedBigState : ViewerState := mkState ⟨0, 0⟩ 1 false true 1000 1000

/-- An unlocked attached state with the default scale limits, used by several
closed theorems. -/
def unlockedState : ViewerState := mkState ⟨0, 0⟩ 1 false false 1000 1000

/-- A locked state whose content (400 × 400 at scale 1) is smaller than the
500 × 500 frame, used by the `C2` counterexample. -/
def smallContentState : ViewerState := mkState ⟨0, 0⟩ 1 false true 400 400

/-- A locked state sitting at the far corner of the pan range, used by the
`C4` counterexample. -/
def cornerState : ViewerState := mkState ⟨-500, -500⟩ 1 false true 1000 1000

/-- An attached state with a primed pinch baseline (`lastCenter` set,
`lastDistance = 100`), used by the `C6` theorems. -/
def pinchPrimedState : ViewerState :=
  { mkState ⟨0, 0⟩ 1 false false 1000 1000 with
      lastCenter := some ⟨100, 100⟩, lastDistance := 100 }

/-- The lock clamp `min 0 (max v l)` lands in `[l, 0]` whenever `l ≤ 0`. -/
theorem lockClamp_bounds (l v : ℚ) (hl : l ≤ 0) :
    l ≤ min 0 (max v l) ∧ min 0 (max v l) ≤ 0 :=
  ⟨le_min hl (le_max_right v l), min_le_left 0 _⟩

/-- The scale interceptor accepts any in-range proposal (and any proposal at
all when `ignoreScale` is set). -/
theorem onScaleChange_accepts (ign : Bool) (mn mx curr v : ℚ)
    (h : ign = true ∨ (mn ≤ v ∧ v ≤ mx)) :
    onScaleChange ign mn mx curr v = v := by
  unfold onScaleChange
  rcases h with h | ⟨h1, h2⟩
  · simp [h]
  · split_ifs with hign hmx hmn
    · rfl
    · linarith
    · linarith
    · rfl

/-- `zoom`'s sequential pre-clamp lands in `[minScale, maxScale]` when the
clamp is active (`ignoreScale = false`) and the bounds are ordered. -/
theorem zoomScale_mem (s : ViewerState) (v : ℚ) (hign : s.ignoreScale = false)
    (hmm : s.minScale ≤ s.maxScale) :
    s.minScale ≤ zoomScale s v ∧ zoomScale s v ≤ s.maxScale := by
  unfold zoomScale
  rw [hign]
  simp only [Bool.not_false, if_true]
  split_ifs <;> constructor <;> linarith

/-- The scale interceptor rejects any out-of-range proposal by returning the
current value (when `ignoreScale` is off). -/
theorem onScaleChange_rejects (mn mx curr v : ℚ) (hout : v > mx ∨ v < mn) :
    onScaleChange false mn mx curr v = curr := by
  unfold onScaleChange
  simp only [Bool.false_eq_true, if_false]
  split_ifs with h1 h2
  · rfl
  · rfl
  · rcases hout with h3 | h3 <;> linarith

/-- The committed scale of `fitSelection` is the interceptor's verdict on
`fitSelectionScale`. -/
theorem fitSelection_scale (s : ViewerState) (x y w hsel : ℚ)
    (hatt : attached s = true) :
    (fitSelection s x y w hsel).scale
      = onScaleChange s.ignoreScale s.minScale s.maxScale s.scale
          (fitSelectionScale s w hsel) := by
  simp [fitSelection, hatt, scaleSet, positionSet, overridableSet]

/-- `zoom`'s pre-clamp is the identity on in-range proposals. -/
theorem zoomScale_id (s : ViewerState) (v : ℚ) (h1 : s.minScale ≤ v)
    (h2 : v ≤ s.maxScale) : zoomScale s v = v := by
  simp only [zoomScale]
  split_ifs <;> first | rfl | linarith

/- ===================== C1 ===================== -/

/-- C1: the claim as stated is false.  With `minScale = 3/5 ≤ maxScale = 7/5`,
`IgnoreScale = false`, current scale `5` and proposed scale `10`, the Change
Interceptor returns the current value `5`, which is not in `[3/5, 7/5]`: the
interceptor rejects by returning the current value, and the current value need
not lie within the bounds. -/
theorem C1_counterexample :
    onScaleChange false (3/5) (7/5) 5 10 = 5 ∧ ¬((5:ℚ) ≤ 7/5) := by
  constructor
  · norm_num [onScaleChange]
  · norm_num

/-- C1 (amended): when IgnoreScale is true the interceptor returns the
proposed value unmodified; when IgnoreScale is false and the *current* value
lies in `[minScale, maxScale]`, the result also lies in
`[minScale, maxScale]`. -/
theorem C1_amended (ignore : Bool) (minScale maxScale curr next : ℚ)
    (hmm : minScale ≤ maxScale) :
    (ignore = true → onScaleChange ignore minScale maxScale curr next = next) ∧
    (ignore = false → minScale ≤ curr → curr ≤ maxScale →
      minScale ≤ onScaleChange ignore minScale maxScale curr next ∧
      onScaleChange ignore minScale maxScale curr next ≤ maxScale) := by
  constructor
  · intro h
    simp [onScaleChange, h]
  · intro h h1 h2
    unfold onScaleChange
    rw [h]
    simp only [Bool.false_eq_true, if_false]
    split_ifs <;> constructor <;> linarith

/-- Witness for `C1_amended` at `minScale = 3/5`, `maxScale = 7/5`,
`curr = 1`, `next = 10`, `ignore = false`. -/
theorem C1_amended_witness :
    ((3:ℚ)/5 ≤ 7/5) ∧
    ((false = true → onScaleChange false (3/5) (7/5) 1 10 = 10) ∧
     (false = false → (3:ℚ)/5 ≤ 1 → (1:ℚ) ≤ 7/5 →
       (3:ℚ)/5 ≤ onScaleChange false (3/5) (7/5) 1 10 ∧
       onScaleChange false (3/5) (7/5) 1 10 ≤ 7/5)) :=
  ⟨by norm_num, C1_amended false (3/5) (7/5) 1 10 (by norm_num)⟩

/- ===================== C10 ===================== -/

/-- C10: when IgnoreScale is false, an out-of-range proposal is rejected, not
clamped: the interceptor returns the current scale exactly, so a `scale.set`
with such a proposal leaves the stored scale unchanged. -/
theorem C10_theorem (s : ViewerState) (next : ℚ)
    (hign : s.ignoreScale = false)
    (hout : next > s.maxScale ∨ next < s.minScale) :
    onScaleChange s.ignoreScale s.minScale s.maxScale s.scale next = s.scale ∧
    (scaleSet s next).scale = s.scale := by
  have h : onScaleChange s.ignoreScale s.minScale s.maxScale s.scale next
      = s.scale := by
    unfold onScaleChange
    rw [hign]
    simp only [Bool.false_eq_true, if_false]
    split_ifs with h1 h2
    · rfl
    · rfl
    · rcases hout with h3 | h3 <;> linarith
  exact ⟨h, by simp [scaleSet, overridableSet, h]⟩

/-- Witness for `C10_theorem`: with the defaults (`minScale = 3/5`,
`maxScale = 7/5`, `ignoreScale = false`) and current scale `1`, the proposal
`10` is rejected and the stored scale stays `1`. -/
theorem C10_witness :
    ((mkState ⟨0, 0⟩ 1 false false 1000 1000).ignoreScale = false ∧
     ((10:ℚ) > (mkState ⟨0, 0⟩ 1 false false 1000 1000).maxScale ∨
      (10:ℚ) < (mkState ⟨0, 0⟩ 1 false false 1000 1000).minScale)) ∧
    (onScaleChange (mkState ⟨0, 0⟩ 1 false false 1000 1000).ignoreScale
        (mkState ⟨0, 0⟩ 1 false false 1000 1000).minScale
        (mkState ⟨0, 0⟩ 1 false false 1000 1000).maxScale
        (mkState ⟨0, 0⟩ 1 false false 1000 1000).scale 10
      = (mkState ⟨0, 0⟩ 1 false false 1000 1000).scale ∧
     (scaleSet (mkState ⟨0, 0⟩ 1 false false 1000 1000) 10).scale
      = (mkState ⟨0, 0⟩ 1 false false 1000 1000).scale) :=
  ⟨⟨rfl, by left; norm_num [mkState]⟩,
    C10_theorem (mkState ⟨0, 0⟩ 1 false false 1000 1000) 10 rfl
      (by left; norm_num [mkState])⟩

/- ===================== C4 ===================== -/

/-- With LockToBoundaries off, `zoom` (attached, no fallback possible) moves
the position by the anchored formula and commits the pre-clamped scale. -/
theorem zoom_unlocked_eq (s : ViewerState) (x y ns : ℚ)
    (hatt : attached s = true) (hlock : s.lockToBoundaries = false) :
    zoom s x y ns =
      scaleSet (positionSet s
        ⟨zoomScale s ns / s.scale * (s.position.x - x) + x,
         zoomScale s ns / s.scale * (s.position.y - y) + y⟩)
        (zoomScale s ns) := by
  simp only [zoom, hatt, hlock, Bool.not_true, Bool.false_eq_true, if_false,
    false_and, eq_self_iff_true, if_true]

/-- C4: the claim as stated is false once the LockToBoundaries re-clamp
engages.  From the locked corner state (position `(-500, -500)`, scale 1,
content 1000 × 1000, frame 500 × 500), `zoom(0, 0, 3/5)` pre-clamps to scale
`3/5` (no fallback: `600 ≥ 500`), but the anchored position `-300` is clamped
to `-100`, so the content point `c = 500` under the anchor `x = 0` moves:
`-100 + 500 · (3/5) = 200 ≠ 0`. -/
theorem C4_counterexample :
    ((0:ℚ) = cornerState.position.x + 500 * cornerState.scale) ∧
    (zoom cornerState 0 0 (3/5)).scale = 3/5 ∧
    (0:ℚ) ≠ (zoom cornerState 0 0 (3/5)).position.x
      + 500 * (zoom cornerState 0 0 (3/5)).scale := by
  refine ⟨by norm_num [cornerState, mkState], ?_, ?_⟩
  · norm_num [zoom, zoomScale, cornerState, mkState, containerRectW,
      containerRectH, scaleSet, positionSet, overridableSet, onScaleChange,
      onPositionChange, attached, min_def, max_def]
  · norm_num [zoom, zoomScale, cornerState, mkState, containerRectW,
      containerRectH, scaleSet, positionSet, overridableSet, onScaleChange,
      onPositionChange, attached, min_def, max_def]

/-- C4 (amended): with LockToBoundaries off (so no boundary re-clamp and no
fit-to-viewer fallback), both elements attached, a nonzero old scale and
ordered scale bounds, `zoom(x, y, ns)` anchors exactly: every content-local
point `c` with `x = p₀ + c · s₀` satisfies `x = p₁ + c · s₁` for the new
position `p₁` and the resulting (pre-clamped, committed) scale `s₁`, and
symmetrically in `y`. -/
theorem C4_amended (s : ViewerState) (x y ns c d : ℚ)
    (hlock : s.lockToBoundaries = false) (hatt : attached s = true)
    (hs0 : s.scale ≠ 0) (hmm : s.minScale ≤ s.maxScale)
    (hcx : x = s.position.x + c * s.scale)
    (hcy : y = s.position.y + d * s.scale) :
    x = (zoom s x y ns).position.x + c * (zoom s x y ns).scale ∧
    y = (zoom s x y ns).position.y + d * (zoom s x y ns).scale := by
  have hacc : onScaleChange s.ignoreScale s.minScale s.maxScale s.scale
      (zoomScale s ns) = zoomScale s ns := by
    apply onScaleChange_accepts
    rcases Bool.eq_false_or_eq_true s.ignoreScale with hig | hig
    · left
      exact hig
    · right
      exact zoomScale_mem s ns hig hmm
  rw [zoom_unlocked_eq s x y ns hatt hlock]
  constructor
  · show x = zoomScale s ns / s.scale * (s.position.x - x) + x
        + c * onScaleChange s.ignoreScale s.minScale s.maxScale s.scale
            (zoomScale s ns)
    rw [hacc, hcx]
    field_simp
    ring
  · show y = zoomScale s ns / s.scale * (s.position.y - y) + y
        + d * onScaleChange s.ignoreScale s.minScale s.maxScale s.scale
            (zoomScale s ns)
    rw [hacc, hcy]
    field_simp
    ring

/-- Witness for `C4_amended` on the unlocked default state with anchor
`(3, 4)`, content point `(3, 4)` and requested scale `6/5`. -/
theorem C4_amended_witness :
    (unlockedState.lockToBoundaries = false ∧ attached unlockedState = true ∧
     unlockedState.scale ≠ 0 ∧
     unlockedState.minScale ≤ unlockedState.maxScale ∧
     (3:ℚ) = unlockedState.position.x + 3 * unlockedState.scale ∧
     (4:ℚ) = unlockedState.position.y + 4 * unlockedState.scale) ∧
    ((3:ℚ) = (zoom unlockedState 3 4 (6/5)).position.x
        + 3 * (zoom unlockedState 3 4 (6/5)).scale ∧
     (4:ℚ) = (zoom unlockedState 3 4 (6/5)).position.y
        + 4 * (zoom unlockedState 3 4 (6/5)).scale) :=
  ⟨⟨rfl, rfl, by norm_num [unlockedState, mkState],
     by norm_num [unlockedState, mkState],
     by norm_num [unlockedState, mkState],
     by norm_num [unlockedState, mkState]⟩,
   C4_amended unlockedState 3 4 (6/5) 3 4 rfl rfl
     (by norm_num [unlockedState, mkState])
     (by norm_num [unlockedState, mkState])
     (by norm_num [unlockedState, mkState])
     (by norm_num [unlockedState, mkState])⟩

/- ===================== C6 ===================== -/

/-- `pan` never changes the scale. -/
theorem pan_scale (s : ViewerState) (x y : ℚ) : (pan s x y).scale = s.scale := by
  simp only [pan]
  split_ifs <;> rfl

/-- When the requested scale is in range and the rescaled content strictly
exceeds the frame on both axes, `zoom` commits exactly that scale. -/
theorem zoom_scale_commit (s : ViewerState) (cx cy v : ℚ)
    (hatt : attached s = true) (h1 : s.minScale ≤ v) (h2 : v ≤ s.maxScale)
    (hw : s.viewerW < containerRectW s * (v / s.scale))
    (hh : s.viewerH < containerRectH s * (v / s.scale)) :
    (zoom s cx cy v).scale = v := by
  have hid : zoomScale s v = v := zoomScale_id s v h1 h2
  have hcond : ¬(s.lockToBoundaries = true ∧
      (containerRectW s * (zoomScale s v / s.scale) < s.viewerW ∨
       containerRectH s * (zoomScale s v / s.scale) < s.viewerH)) := by
    rw [hid]
    rintro ⟨-, hor⟩
    rcases hor with h | h <;> linarith
  simp only [zoom, hatt, Bool.not_true, Bool.false_eq_true, if_false,
    if_neg hcond]
  show onScaleChange s.ignoreScale s.minScale s.maxScale s.scale
      (zoomScale s v) = v
  rw [hid]
  apply onScaleChange_accepts
  rcases Bool.eq_false_or_eq_true s.ignoreScale with hig | hig
  · exact Or.inl hig
  · exact Or.inr ⟨h1, h2⟩

/-- Evaluation of `onPinchMove` on a primed baseline (`lastCenter` set,
`lastDistance ≠ 0`) when the computed scale differs from the current one:
the whole frame reduces to the commit gate. -/
theorem onPinchMove_primed_eq (s : ViewerState) (t1 t2 : Position) (d1 : ℚ)
    (lc : Position)
    (hatt : attached s = true) (hmov : s.isMoving = false)
    (hlc : s.lastCenter = some lc) (hld : s.lastDistance ≠ 0)
    (hne : ¬(s.scale = s.scale * (d1 / s.lastDistance))) :
    onPinchMove s t1 t2 d1 =
      (if s.scale * (d1 / s.lastDistance) ≤ s.maxScale ∧
          s.scale * (d1 / s.lastDistance) ≥ s.minScale ∧
          containerRectW s * (s.scale * (d1 / s.lastDistance) / s.scale)
            > s.viewerW ∧
          containerRectH s * (s.scale * (d1 / s.lastDistance) / s.scale)
            > s.viewerH then
        let newCenter := getPinchCenter t1 t2
        let s2 :=
          match s.pinchBehavior with
          | PinchBehavior.zoomDrag =>
            pan (zoom s newCenter.x newCenter.y
                (s.scale * (d1 / s.lastDistance)))
              ((newCenter.x - lc.x) * (s.scale * (d1 / s.lastDistance) / s.scale))
              ((newCenter.y - lc.y) * (s.scale * (d1 / s.lastDistance) / s.scale))
          | PinchBehavior.zoomOnly =>
            zoom s newCenter.x newCenter.y (s.scale * (d1 / s.lastDistance))
        { s2 with lastDistance := d1, lastCenter := some newCenter }
      else s) := by
  simp only [onPinchMove, hatt, hmov, hlc, Bool.not_true, Bool.false_eq_true,
    if_false, if_neg hld, if_neg hne]

/-- C6: the claim as stated is false.  From a primed pinch baseline with
`lastDistance = d0 = 100` and scale 1, moving the touches to distance
`d1 = 200` computes `newScale = 2`; the claim demands the committed scale be
the clamp `maxScale = 7/5`, but the commit gate (`newScale ≤ maxScale`)
fails, the frame is dropped, and the scale stays `1` — neither the clamped
value nor the raw product. -/
theorem C6_counterexample :
    pinchPrimedState.scale * (200 / pinchPrimedState.lastDistance) = 2 ∧
    (onPinchMove pinchPrimedState ⟨0, 0⟩ ⟨200, 200⟩ 200).scale = 1 ∧
    ((1:ℚ) ≠ 7/5 ∧ (1:ℚ) ≠ 2) := by
  refine ⟨by norm_num [pinchPrimedState, mkState], ?_, by norm_num, by norm_num⟩
  norm_num [onPinchMove, getPinchCenter, pinchPrimedState, mkState, attached,
    containerRectW, containerRectH]

/-- C6 (amended): on a primed pinch baseline (`lastDistance = d0 ≠ 0`,
`lastCenter` set, not moving, attached), the handler computes
`newScale = oldScale · (d1/d0)` and the commit gate compares `newScale`
itself against `minScale` and `maxScale` (together with the strict
content-covers-frame precheck): when the gate passes the committed scale is
exactly `newScale` (for either pinch behavior), and when it fails the frame
is dropped and the scale is unchanged — the value is never clamped to a
bound. -/
theorem C6_amended (s : ViewerState) (t1 t2 : Position) (d1 : ℚ)
    (lc : Position)
    (hatt : attached s = true) (hmov : s.isMoving = false)
    (hlc : s.lastCenter = some lc) (hld : s.lastDistance ≠ 0) :
    ((s.scale * (d1 / s.lastDistance) ≤ s.maxScale ∧
      s.scale * (d1 / s.lastDistance) ≥ s.minScale ∧
      containerRectW s * (s.scale * (d1 / s.lastDistance) / s.scale)
        > s.viewerW ∧
      containerRectH s * (s.scale * (d1 / s.lastDistance) / s.scale)
        > s.viewerH) →
      (onPinchMove s t1 t2 d1).scale = s.scale * (d1 / s.lastDistance)) ∧
    (¬(s.scale * (d1 / s.lastDistance) ≤ s.maxScale ∧
       s.scale * (d1 / s.lastDistance) ≥ s.minScale ∧
       containerRectW s * (s.scale * (d1 / s.lastDistance) / s.scale)
         > s.viewerW ∧
       containerRectH s * (s.scale * (d1 / s.lastDistance) / s.scale)
         > s.viewerH) →
      (onPinchMove s t1 t2 d1).scale = s.scale) := by
  by_cases hne : s.scale = s.scale * (d1 / s.lastDistance)
  · have hs : onPinchMove s t1 t2 d1 = s := by
      simp only [onPinchMove, hatt, hmov, hlc, Bool.not_true,
        Bool.false_eq_true, if_false, if_neg hld, if_pos hne]
    constructor
    · intro _
      rw [hs]
      exact hne
    · intro _
      rw [hs]
  · rw [onPinchMove_primed_eq s t1 t2 d1 lc hatt hmov hlc hld hne]
    constructor
    · intro hg
      rw [if_pos hg]
      obtain ⟨hg1, hg2, hg3, hg4⟩ := hg
      cases hpb : s.pinchBehavior
      · simp only [hpb]
        exact zoom_scale_commit s _ _ _ hatt hg2 hg1 hg3 hg4
      · simp only [hpb]
        show (pan (zoom s (getPinchCenter t1 t2).x (getPinchCenter t1 t2).y
            (s.scale * (d1 / s.lastDistance))) _ _).scale
          = s.scale * (d1 / s.lastDistance)
        rw [pan_scale]
        exact zoom_scale_commit s _ _ _ hatt hg2 hg1 hg3 hg4
    · intro hg
      rw [if_neg hg]

/-- Witness for `C6_amended`: from the primed baseline (distance 100, scale
1), touches at distance 130 compute `newScale = 13/10 ∈ [3/5, 7/5]` with the
content precheck passing (`1300 > 500`), so the committed scale is exactly
`13/10`. -/
theorem C6_amended_witness :
    (attached pinchPrimedState = true ∧ pinchPrimedState.isMoving = false ∧
     pinchPrimedState.lastCenter = some ⟨100, 100⟩ ∧
     pinchPrimedState.lastDistance ≠ 0) ∧
    (((pinchPrimedState.scale * (130 / pinchPrimedState.lastDistance)
         ≤ pinchPrimedState.maxScale ∧
       pinchPrimedState.scale * (130 / pinchPrimedState.lastDistance)
         ≥ pinchPrimedState.minScale ∧
       containerRectW pinchPrimedState *
         (pinchPrimedState.scale * (130 / pinchPrimedState.lastDistance) /
           pinchPrimedState.scale) > pinchPrimedState.viewerW ∧
       containerRectH pinchPrimedState *
         (pinchPrimedState.scale * (130 / pinchPrimedState.lastDistance) /
           pinchPrimedState.scale) > pinchPrimedState.viewerH) →
      (onPinchMove pinchPrimedState ⟨0, 0⟩ ⟨200, 200⟩ 130).scale
        = pinchPrimedState.scale * (130 / pinchPrimedState.lastDistance)) ∧
     (¬(pinchPrimedState.scale * (130 / pinchPrimedState.lastDistance)
          ≤ pinchPrimedState.maxScale ∧
        pinchPrimedState.scale * (130 / pinchPrimedState.lastDistance)
          ≥ pinchPrimedState.minScale ∧
        containerRectW pinchPrimedState *
          (pinchPrimedState.scale * (130 / pinchPrimedState.lastDistance) /
            pinchPrimedState.scale) > pinchPrimedState.viewerW ∧
        containerRectH pinchPrimedState *
          (pinchPrimedState.scale * (130 / pinchPrimedState.lastDistance) /
            pinchPrimedState.scale) > pinchPrimedState.viewerH) →
       (onPinchMove pinchPrimedState ⟨0, 0⟩ ⟨200, 200⟩ 130).scale
         = pinchPrimedState.scale)) :=
  ⟨⟨rfl, rfl, rfl, by norm_num [pinchPrimedState, mkState]⟩,
    C6_amended pinchPrimedState ⟨0, 0⟩ ⟨200, 200⟩ 130 ⟨100, 100⟩ rfl rfl rfl
      (by norm_num [pinchPrimedState, mkState])⟩

/- ===================== C7 ===================== -/

/-- C7: `onWheel` (attached, action key held) selects the mouse sensitivity
exactly when the dominant delta exceeds 50 in absolute value and the
touchpad sensitivity otherwise, computes `newScale = oldScale / step` with
the step inverted for negative deltas (so a negative delta multiplies by the
step: zooming in whenever the step exceeds 1), and delegates to
`zoom(cursorX, cursorY, newScale)`. -/
theorem C7_theorem (s : ViewerState) (e : WheelEvt) (delta step newScale : ℚ)
    (hatt : attached s = true) (hkey : s.hasActionKeyPressed = true)
    (hdelta : delta = (if e.deltaY ≠ 0 then e.deltaY else e.deltaX))
    (hstep : step = (if |delta| > 50 then s.scaleMouseSensitivity
                     else s.scaleTouchpadSensitivity))
    (hns : newScale = s.scale / (if delta < 0 then 1 / step else step)) :
    onWheel s e
      = zoom s (e.clientX - s.viewerX) (e.clientY - s.viewerY) newScale ∧
    (|delta| > 50 → step = s.scaleMouseSensitivity) ∧
    (¬(|delta| > 50) → step = s.scaleTouchpadSensitivity) ∧
    (delta < 0 → newScale = s.scale * step) ∧
    (delta < 0 → 1 < step → 0 < s.scale → s.scale < newScale) := by
  subst hdelta
  subst hstep
  subst hns
  refine ⟨?_, ?_, ?_, ?_, ?_⟩
  · simp only [onWheel, hatt, hkey, Bool.not_true, Bool.false_eq_true,
      Bool.or_self, if_false, getMousePosition]
  · intro h
    rw [if_pos h]
  · intro h
    rw [if_neg h]
  · intro h
    rw [if_pos h, one_div, div_inv_eq_mul]
  · intro h h1 h2
    rw [if_pos h, one_div, div_inv_eq_mul]
    nlinarith

/-- Witness for `C7_theorem`: wheel event with `deltaY = -100` on the default
state picks the mouse step `11/10` and computes `newScale = 11/10`,
delegating to `zoom(10, 20, 11/10)`. -/
theorem C7_witness :
    (attached unlockedState = true ∧
     unlockedState.hasActionKeyPressed = true ∧
     (-100 : ℚ) = (if (-100 : ℚ) ≠ 0 then (-100 : ℚ) else 0) ∧
     (11/10 : ℚ) = (if |(-100 : ℚ)| > 50 then
        unlockedState.scaleMouseSensitivity
      else unlockedState.scaleTouchpadSensitivity) ∧
     (11/10 : ℚ) = unlockedState.scale /
       (if (-100 : ℚ) < 0 then 1 / (11/10 : ℚ) else (11/10 : ℚ))) ∧
    (onWheel unlockedState ⟨10, 20, 0, -100⟩
       = zoom unlockedState (10 - unlockedState.viewerX)
           (20 - unlockedState.viewerY) (11/10) ∧
     (|(-100 : ℚ)| > 50 → (11/10 : ℚ) = unlockedState.scaleMouseSensitivity) ∧
     (¬(|(-100 : ℚ)| > 50) →
       (11/10 : ℚ) = unlockedState.scaleTouchpadSensitivity) ∧
     ((-100 : ℚ) < 0 → (11/10 : ℚ) = unlockedState.scale * (11/10)) ∧
     ((-100 : ℚ) < 0 → 1 < (11/10 : ℚ) → 0 < unlockedState.scale →
       unlockedState.scale < 11/10)) :=
  ⟨⟨rfl, rfl, by norm_num, by norm_num [unlockedState, mkState],
     by norm_num [unlockedState, mkState]⟩,
    C7_theorem unlockedState ⟨10, 20, 0, -100⟩ (-100) (11/10) (11/10) rfl rfl
      (by norm_num) (by norm_num [unlockedState, mkState])
      (by norm_num [unlockedState, mkState])⟩

/- ===================== C8 ===================== -/

/-- With both elements attached, `fitToViewer(false)` commits the clamped
fit scale through the interceptor and resets position to the origin. -/
theorem fitToViewer_eq (s : ViewerState) (hatt : attached s = true) :
    fitToViewer s false =
      { s with
          scale := onScaleChange s.ignoreScale s.minScale s.maxScale s.scale
            (max s.minScale (min s.maxScale (fitRawScale s))),
          position := ⟨0, 0⟩ } := by
  simp only [fitToViewer, hatt, Bool.not_true, Bool.false_eq_true, if_false,
    Bool.not_false, if_true, positionSet, scaleSet, overridableSet,
    onPositionChange]

/-- When the committed scale is nonzero, the raw fit scale depends only on
the frame size, the intrinsic content size and the lock flag (the measured
content size divided by the scale is the intrinsic size). -/
theorem fitRawScale_eq (s : ViewerState) (hs : s.scale ≠ 0) :
    fitRawScale s =
      (if s.lockToBoundaries then
        if |s.viewerH / s.baseH - 1| < |s.viewerW / s.baseW - 1| then
          s.viewerH / s.baseH
        else s.viewerW / s.baseW
      else (s.viewerH / s.baseH + s.viewerW / s.baseW) / 2) := by
  have hW : containerRectW s / s.scale = s.baseW := by
    unfold containerRectW
    rw [mul_div_assoc, div_self hs, mul_one]
  have hH : containerRectH s / s.scale = s.baseH := by
    unfold containerRectH
    rw [mul_div_assoc, div_self hs, mul_one]
  simp only [fitRawScale, hW, hH]

/-- C8: `fitToViewer()` is idempotent.  With both elements attached, a
nonzero current scale, `0 < minScale ≤ maxScale` (so the committed scale is
again nonzero), and the content rectangle measured as intrinsic size times
the committed scale, a second `fitToViewer()` recomputes exactly the same
scale and position and leaves the state unchanged. -/
theorem C8_theorem (s : ViewerState) (hatt : attached s = true)
    (hs : s.scale ≠ 0) (hmn : 0 < s.minScale)
    (hmm : s.minScale ≤ s.maxScale) :
    fitToViewer (fitToViewer s false) false = fitToViewer s false := by
  have hacc : ∀ r curr : ℚ,
      onScaleChange s.ignoreScale s.minScale s.maxScale curr
        (max s.minScale (min s.maxScale r))
      = max s.minScale (min s.maxScale r) := by
    intro r curr
    apply onScaleChange_accepts
    rcases Bool.eq_false_or_eq_true s.ignoreScale with hig | hig
    · exact Or.inl hig
    · exact Or.inr ⟨le_max_left _ _, max_le hmm (min_le_left _ _)⟩
  have h1 : fitToViewer s false =
      { s with scale := max s.minScale (min s.maxScale (fitRawScale s)),
               position := ⟨0, 0⟩ } := by
    rw [fitToViewer_eq s hatt, hacc (fitRawScale s) s.scale]
  have hC0 : max s.minScale (min s.maxScale (fitRawScale s)) ≠ 0 :=
    ne_of_gt (lt_of_lt_of_le hmn (le_max_left _ _))
  have hraw : fitRawScale
      { s with scale := max s.minScale (min s.maxScale (fitRawScale s)),
               position := (⟨0, 0⟩ : Position) } = fitRawScale s := by
    rw [fitRawScale_eq _ hC0, fitRawScale_eq s hs]
  have hatt1 : attached
      { s with scale := max s.minScale (min s.maxScale (fitRawScale s)),
               position := (⟨0, 0⟩ : Position) } = true := hatt
  rw [h1, fitToViewer_eq _ hatt1]
  show ({ s with
      scale := onScaleChange s.ignoreScale s.minScale s.maxScale
        (max s.minScale (min s.maxScale (fitRawScale s)))
        (max s.minScale (min s.maxScale (fitRawScale
          { s with scale := max s.minScale (min s.maxScale (fitRawScale s)),
                   position := (⟨0, 0⟩ : Position) }))),
      position := ⟨0, 0⟩ } : ViewerState)
    = { s with scale := max s.minScale (min s.maxScale (fitRawScale s)),
               position := ⟨0, 0⟩ }
  rw [hraw, hacc (fitRawScale s) _]

/-- Witness for `C8_theorem` on the attached default state with content
1000 × 1000 in the 500 × 500 frame. -/
theorem C8_witness :
    (attached unlockedState = true ∧ unlockedState.scale ≠ 0 ∧
     0 < unlockedState.minScale ∧
     unlockedState.minScale ≤ unlockedState.maxScale) ∧
    fitToViewer (fitToViewer unlockedState false) false
      = fitToViewer unlockedState false :=
  ⟨⟨rfl, by norm_num [unlockedState, mkState],
     by norm_num [unlockedState, mkState],
     by norm_num [unlockedState, mkState]⟩,
    C8_theorem unlockedState rfl (by norm_num [unlockedState, mkState])
      (by norm_num [unlockedState, mkState])
      (by norm_num [unlockedState, mkState])⟩

/- ===================== C9 ===================== -/

/-- C9: every imperative method and every gesture handler is a silent no-op
when either element reference is absent; the key handlers (which do not check
the references) touch only the internal action-key flag, so every observable
store is unchanged as well. -/
theorem C9_theorem (s : ViewerState) (h : attached s = false)
    (x y w hsel ns d : ℚ) (e : MouseEvt) (we : WheelEvt)
    (t1 t2 : Position) (ts rest : List Position) (force isRepeat : Bool)
    (key : String) :
    panTo s x y = s ∧ pan s x y = s ∧ zoom s x y ns = s ∧
    zoomOnCenter s ns = s ∧ fitToViewer s force = s ∧
    fitSelection s x y w hsel = s ∧ center s = s ∧
    onMouseDown s e = s ∧ onMouseMove s e = s ∧ onMouseUp s e = s ∧
    onWheel s we = s ∧ onTouchStart s t1 rest d = s ∧
    onTouchMove s t1 rest d = s ∧ onPinchMove s t1 t2 d = s ∧
    onTouchEnd s ts = s ∧
    observable (onKeyDown s isRepeat key) = observable s ∧
    observable (onKeyUp s key) = observable s := by
  refine ⟨?_, ?_, ?_, ?_, ?_, ?_, ?_, ?_, ?_, ?_, ?_, ?_, ?_, ?_, ?_, ?_, ?_⟩
  · simp [panTo, h]
  · simp [pan, h]
  · simp [zoom, h]
  · simp [zoomOnCenter, h]
  · simp [fitToViewer, h]
  · simp [fitSelection, h]
  · simp [center, h]
  · simp [onMouseDown, h]
  · simp [onMouseMove, h]
  · simp [onMouseUp, h]
  · simp [onWheel, h]
  · simp [onTouchStart, h]
  · simp [onTouchMove, h]
  · simp [onPinchMove, h]
  · simp [onTouchEnd, h]
  · unfold onKeyDown observable
    split_ifs <;> rfl
  · unfold onKeyUp observable
    split_ifs <;> rfl

/-- Witness for `C9_theorem` on a concrete state with the frame reference
absent, at concrete arguments for every method and handler. -/
theorem C9_witness :
    attached detachedState = false ∧
    (panTo detachedState 1 2 = detachedState ∧
     pan detachedState 1 2 = detachedState ∧
     zoom detachedState 1 2 (6/5) = detachedState ∧
     zoomOnCenter detachedState (6/5) = detachedState ∧
     fitToViewer detachedState false = detachedState ∧
     fitSelection detachedState 1 2 100 100 = detachedState ∧
     center detachedState = detachedState ∧
     onMouseDown detachedState ⟨10, 20⟩ = detachedState ∧
     onMouseMove detachedState ⟨10, 20⟩ = detachedState ∧
     onMouseUp detachedState ⟨10, 20⟩ = detachedState ∧
     onWheel detachedState ⟨10, 20, 0, -100⟩ = detachedState ∧
     onTouchStart detachedState ⟨10, 20⟩ [⟨30, 40⟩] 25 = detachedState ∧
     onTouchMove detachedState ⟨10, 20⟩ [⟨30, 40⟩] 25 = detachedState ∧
     onPinchMove detachedState ⟨10, 20⟩ ⟨30, 40⟩ 25 = detachedState ∧
     onTouchEnd detachedState [⟨10, 20⟩, ⟨30, 40⟩] = detachedState ∧
     observable (onKeyDown detachedState false "Control")
       = observable detachedState ∧
     observable (onKeyUp detachedState "Control")
       = observable detachedState) :=
  ⟨by decide,
    C9_theorem detachedState (by decide) 1 2 100 100 (6/5) 25 ⟨10, 20⟩
      ⟨10, 20, 0, -100⟩ ⟨10, 20⟩ ⟨30, 40⟩ [⟨10, 20⟩, ⟨30, 40⟩] [⟨30, 40⟩]
      false false "Control"⟩

/- ===================== C2 ===================== -/

/-- `coversFrame` for a plain position write follows from the written
coordinates landing in the boundary range (the geometry fields are
untouched). -/
theorem coversFrame_positionSet (s : ViewerState) (a b : ℚ)
    (h1 : -(containerRectW s - s.viewerW) ≤ a) (h2 : a ≤ 0)
    (h3 : -(containerRectH s - s.viewerH) ≤ b) (h4 : b ≤ 0) :
    coversFrame (positionSet s ⟨a, b⟩) :=
  ⟨h1, h2, h3, h4⟩

/-- `coversFrame` for a position write followed by an accepted scale write:
the bounds are taken at the newly committed scale. -/
theorem coversFrame_scaleSet_positionSet (s : ViewerState) (a b v : ℚ)
    (hacc : onScaleChange s.ignoreScale s.minScale s.maxScale s.scale v = v)
    (h1 : -(s.baseW * v - s.viewerW) ≤ a) (h2 : a ≤ 0)
    (h3 : -(s.baseH * v - s.viewerH) ≤ b) (h4 : b ≤ 0) :
    coversFrame (scaleSet (positionSet s ⟨a, b⟩) v) := by
  have hsc : (scaleSet (positionSet s ⟨a, b⟩) v).scale
      = onScaleChange s.ignoreScale s.minScale s.maxScale s.scale v := rfl
  unfold coversFrame containerRectW containerRectH
  rw [hsc, hacc]
  exact ⟨h1, h2, h3, h4⟩

/-- Under lock, `panTo` writes the clamped coordinates. -/
theorem panTo_locked_eq (s : ViewerState) (x y : ℚ)
    (hatt : attached s = true) (hlock : s.lockToBoundaries = true) :
    panTo s x y = positionSet s
      ⟨min 0 (max x (-(containerRectW s - s.viewerW))),
       min 0 (max y (-(containerRectH s - s.viewerH)))⟩ := by
  simp only [panTo, hatt, hlock, Bool.not_true, Bool.false_eq_true, if_false,
    eq_self_iff_true, if_true]

/-- Under lock, `pan` writes the clamped shifted coordinates. -/
theorem pan_locked_eq (s : ViewerState) (x y : ℚ)
    (hatt : attached s = true) (hlock : s.lockToBoundaries = true) :
    pan s x y = positionSet s
      ⟨min 0 (max (s.position.x + x) (-(containerRectW s - s.viewerW))),
       min 0 (max (s.position.y + y) (-(containerRectH s - s.viewerH)))⟩ := by
  simp only [pan, hatt, hlock, Bool.not_true, Bool.false_eq_true, if_false,
    eq_self_iff_true, if_true]

/-- Under lock, when the rescaled content still covers the frame on both
axes, `zoom` does not fall back to `fitToViewer`: it clamps the anchored
position into the boundary range and commits the pre-clamped scale. -/
theorem zoom_locked_eq (s : ViewerState) (x y ns : ℚ)
    (hatt : attached s = true) (hlock : s.lockToBoundaries = true)
    (hw : s.viewerW ≤ containerRectW s * (zoomScale s ns / s.scale))
    (hh : s.viewerH ≤ containerRectH s * (zoomScale s ns / s.scale)) :
    zoom s x y ns =
      scaleSet (positionSet s
        ⟨min 0 (max (zoomScale s ns / s.scale * (s.position.x - x) + x)
            (-(containerRectW s * (zoomScale s ns / s.scale) - s.viewerW))),
         min 0 (max (zoomScale s ns / s.scale * (s.position.y - y) + y)
            (-(containerRectH s * (zoomScale s ns / s.scale) - s.viewerH)))⟩)
        (zoomScale s ns) := by
  have hcond : ¬(containerRectW s * (zoomScale s ns / s.scale) < s.viewerW ∨
      containerRectH s * (zoomScale s ns / s.scale) < s.viewerH) := by
    push_neg
    exact ⟨hw, hh⟩
  simp only [zoom, hatt, hlock, Bool.not_true, Bool.false_eq_true, if_false,
    eq_self_iff_true, true_and, if_true]
  rw [if_neg hcond]

/-- C2: the claim as stated is false when the content rectangle is smaller
than the frame.  With a locked 400 × 400 content in a 500 × 500 frame,
`panTo(10, 10)` yields Position `(0, 0)`, and the claimed inequality
`-(contentWidth - frameWidth) = 100 ≤ 0` fails: the content cannot cover the
frame. -/
theorem C2_counterexample :
    smallContentState.lockToBoundaries = true ∧
    ¬ coversFrame (panTo smallContentState 10 10) := by
  constructor
  · rfl
  · norm_num [coversFrame, panTo, positionSet, overridableSet,
      onPositionChange, containerRectW, containerRectH, smallContentState,
      mkState, attached, min_def, max_def]

/-- C2 (amended): under LockToBoundaries with both elements attached and
ordered scale bounds, `panTo` and `pan` re-establish the boundary invariant
whenever the content rectangle is at least as large as the frame, and `zoom`
re-establishes it (at the resulting scale) whenever the fit-to-viewer
fallback is not taken, i.e. whenever the rescaled content still covers the
frame on both axes. -/
theorem C2_amended (s : ViewerState) (x y ns : ℚ)
    (hlock : s.lockToBoundaries = true) (hatt : attached s = true)
    (hmm : s.minScale ≤ s.maxScale) :
    (s.viewerW ≤ containerRectW s → s.viewerH ≤ containerRectH s →
      coversFrame (panTo s x y) ∧ coversFrame (pan s x y)) ∧
    (s.scale ≠ 0 →
      s.viewerW ≤ containerRectW s * (zoomScale s ns / s.scale) →
      s.viewerH ≤ containerRectH s * (zoomScale s ns / s.scale) →
      coversFrame (zoom s x y ns)) := by
  constructor
  · intro hw hh
    have hLw : -(containerRectW s - s.viewerW) ≤ 0 := by linarith
    have hLh : -(containerRectH s - s.viewerH) ≤ 0 := by linarith
    constructor
    · rw [panTo_locked_eq s x y hatt hlock]
      exact coversFrame_positionSet s _ _
        (lockClamp_bounds _ x hLw).1 (lockClamp_bounds _ x hLw).2
        (lockClamp_bounds _ y hLh).1 (lockClamp_bounds _ y hLh).2
    · rw [pan_locked_eq s x y hatt hlock]
      exact coversFrame_positionSet s _ _
        (lockClamp_bounds _ (s.position.x + x) hLw).1
        (lockClamp_bounds _ (s.position.x + x) hLw).2
        (lockClamp_bounds _ (s.position.y + y) hLh).1
        (lockClamp_bounds _ (s.position.y + y) hLh).2
  · intro hs0 hw hh
    have hacc : onScaleChange s.ignoreScale s.minScale s.maxScale s.scale
        (zoomScale s ns) = zoomScale s ns := by
      apply onScaleChange_accepts
      rcases Bool.eq_false_or_eq_true s.ignoreScale with hig | hig
      · left
        exact hig
      · right
        exact zoomScale_mem s ns hig hmm
    have hW : s.baseW * zoomScale s ns
        = containerRectW s * (zoomScale s ns / s.scale) := by
      unfold containerRectW
      field_simp
      ring
    have hH : s.baseH * zoomScale s ns
        = containerRectH s * (zoomScale s ns / s.scale) := by
      unfold containerRectH
      field_simp
      ring
    have hLw : -(containerRectW s * (zoomScale s ns / s.scale) - s.viewerW) ≤ 0 := by
      linarith
    have hLh : -(containerRectH s * (zoomScale s ns / s.scale) - s.viewerH) ≤ 0 := by
      linarith
    rw [zoom_locked_eq s x y ns hatt hlock hw hh]
    apply coversFrame_scaleSet_positionSet s _ _ _ hacc
    · rw [hW]
      exact (lockClamp_bounds _ _ hLw).1
    · exact (lockClamp_bounds _ _ hLw).2
    · rw [hH]
      exact (lockClamp_bounds _ _ hLh).1
    · exact (lockClamp_bounds _ _ hLh).2

/-- Witness for `C2_amended` on the locked 1000 × 1000 content state, with
`panTo(10, 20)`, `pan(10, 20)` and `zoom(10, 20, 6/5)`. -/
theorem C2_amended_witness :
    (lockedBigState.lockToBoundaries = true ∧ attached lockedBigState = true ∧
     lockedBigState.minScale ≤ lockedBigState.maxScale) ∧
    ((lockedBigState.viewerW ≤ containerRectW lockedBigState →
      lockedBigState.viewerH ≤ containerRectH lockedBigState →
      coversFrame (panTo lockedBigState 10 20) ∧
      coversFrame (pan lockedBigState 10 20)) ∧
     (lockedBigState.scale ≠ 0 →
      lockedBigState.viewerW ≤ containerRectW lockedBigState *
        (zoomScale lockedBigState (6/5) / lockedBigState.scale) →
      lockedBigState.viewerH ≤ containerRectH lockedBigState *
        (zoomScale lockedBigState (6/5) / lockedBigState.scale) →
      coversFrame (zoom lockedBigState 10 20 (6/5)))) :=
  ⟨⟨rfl, rfl, by norm_num [lockedBigState, mkState]⟩,
    C2_amended lockedBigState 10 20 (6/5) rfl rfl
      (by norm_num [lockedBigState, mkState])⟩

/- ===================== C3 ===================== -/

/-- C3: the claim as stated is false.  With LockToBoundaries on,
`fitSelection(900, 900, 500, 500)` writes Position `(-900, -900)` without any
re-clamping (the position interceptor passes values through), leaving the
content rectangle exposing area outside the frame:
`-(1000 - 500) = -500 ≤ -900` fails. -/
theorem C3_counterexample :
    lockedBigState.lockToBoundaries = true ∧
    ¬ coversFrame (fitSelection lockedBigState 900 900 500 500) := by
  constructor
  · rfl
  · norm_num [coversFrame, fitSelection, fitSelectionScale, scaleSet,
      positionSet, overridableSet, onScaleChange, onPositionChange,
      containerRectW, containerRectH, lockedBigState, mkState, attached,
      min_def]

/-- C3 (amended): when LockToBoundaries is true, the boundary invariant is
re-asserted only by `panTo`, `pan`, `zoom` and the lock-toggle effect; the
position Change Interceptor itself passes every proposal through unchanged,
and `fitSelection` and `center` write Position without re-clamping (their
written values do not depend on LockToBoundaries). -/
theorem C3_amended (s : ViewerState) (curr next : Position) (x y w hsel : ℚ)
    (hatt : attached s = true) :
    onPositionChange curr next = next ∧
    (fitSelection s x y w hsel).position
      = ⟨-x * fitSelectionScale s w hsel, -y * fitSelectionScale s w hsel⟩ ∧
    (center s).position
      = ⟨-(containerRectW s - s.viewerW) / 2,
         -(containerRectH s - s.viewerH) / 2⟩ := by
  refine ⟨rfl, ?_, ?_⟩
  · simp [fitSelection, hatt, scaleSet, positionSet, overridableSet,
      onPositionChange]
  · simp [center, hatt, positionSet, overridableSet, onPositionChange]

/-- Witness for `C3_amended` on a concrete attached locked state. -/
theorem C3_amended_witness :
    attached lockedBigState = true ∧
    (onPositionChange ⟨1, 2⟩ ⟨3, 4⟩ = (⟨3, 4⟩ : Position) ∧
     (fitSelection lockedBigState 900 900 500 500).position
       = ⟨-900 * fitSelectionScale lockedBigState 500 500,
          -900 * fitSelectionScale lockedBigState 500 500⟩ ∧
     (center lockedBigState).position
       = ⟨-(containerRectW lockedBigState - lockedBigState.viewerW) / 2,
          -(containerRectH lockedBigState - lockedBigState.viewerH) / 2⟩) :=
  ⟨by decide, C3_amended lockedBigState ⟨1, 2⟩ ⟨3, 4⟩ 900 900 500 500
    (by decide)⟩

/- ===================== C5 ===================== -/

/-- C5: the claim as stated is false.  With frame 500 × 500 and selection
100 × 100, `min(frameWidth/w, frameHeight/h) = 5`, but the scale write goes
through the Change Interceptor, which rejects `5 > maxScale = 7/5` and keeps
the old scale `1`; the resulting scale is not the claimed `5`. -/
theorem C5_counterexample :
    fitSelectionScale unlockedState 100 100 = 5 ∧
    (fitSelection unlockedState 10 10 100 100).scale = 1 ∧ (1:ℚ) ≠ 5 := by
  have hsc : fitSelectionScale unlockedState 100 100 = 5 := by
    norm_num [fitSelectionScale, unlockedState, mkState, min_def]
  refine ⟨hsc, ?_, by norm_num⟩
  rw [fitSelection_scale unlockedState 10 10 100 100 rfl, hsc]
  norm_num [unlockedState, mkState, onScaleChange]

/-- C5 (amended): `fitSelection(x, y, w, h)` always writes Position
`(-x·ns, -y·ns)` with `ns = min(frameWidth/w, frameHeight/h)`; the resulting
scale equals `ns` only when IgnoreScale is true or `ns` lies within
`[minScale, maxScale]` — otherwise the scale write is rejected by the Change
Interceptor and the scale is unchanged. -/
theorem C5_amended (s : ViewerState) (x y w hsel : ℚ)
    (hatt : attached s = true) :
    (fitSelection s x y w hsel).position
      = ⟨-x * fitSelectionScale s w hsel, -y * fitSelectionScale s w hsel⟩ ∧
    ((s.ignoreScale = true ∨
        (s.minScale ≤ fitSelectionScale s w hsel ∧
         fitSelectionScale s w hsel ≤ s.maxScale)) →
      (fitSelection s x y w hsel).scale = fitSelectionScale s w hsel) ∧
    (s.ignoreScale = false →
      (fitSelectionScale s w hsel > s.maxScale ∨
       fitSelectionScale s w hsel < s.minScale) →
      (fitSelection s x y w hsel).scale = s.scale) := by
  refine ⟨?_, ?_, ?_⟩
  · simp [fitSelection, hatt, scaleSet, positionSet, overridableSet,
      onPositionChange]
  · intro hacc
    rw [fitSelection_scale s x y w hsel hatt]
    exact onScaleChange_accepts _ _ _ _ _ hacc
  · intro hign hout
    rw [fitSelection_scale s x y w hsel hatt, hign]
    exact onScaleChange_rejects _ _ _ _ hout

/-- Witness for `C5_amended`: fitting the selection `(10, 10, 400, 400)` in
the default state produces scale `5/4 ∈ [3/5, 7/5]` and Position
`(-25/2, -25/2)`. -/
theorem C5_amended_witness :
    attached unlockedState = true ∧
    ((fitSelection unlockedState 10 10 400 400).position
       = ⟨-10 * fitSelectionScale unlockedState 400 400,
          -10 * fitSelectionScale unlockedState 400 400⟩ ∧
     ((unlockedState.ignoreScale = true ∨
         (unlockedState.minScale ≤ fitSelectionScale unlockedState 400 400 ∧
          fitSelectionScale unlockedState 400 400 ≤ unlockedState.maxScale)) →
       (fitSelection unlockedState 10 10 400 400).scale
         = fitSelectionScale unlockedState 400 400) ∧
     (unlockedState.ignoreScale = false →
       (fitSelectionScale unlockedState 400 400 > unlockedState.maxScale ∨
        fitSelectionScale unlockedState 400 400 < unlockedState.minScale) →
       (fitSelection unlockedState 10 10 400 400).scale
         = unlockedState.scale)) :=
  ⟨by decide, C5_amended unlockedState 10 10 400 400 (by decide)⟩

end SvgViewer
